import Mathlib

/-!
Verification of the senkisem.com order-processing backend.

Shallow embedding conventions:
- Monetary amounts are modelled as rationals; the JavaScript sources carry
  them as JS numbers and format them with toFixed only at display boundaries.
- Timestamps (Date.now, token expiry cells) are modelled as integers giving
  epoch milliseconds.
- Spreadsheet rows become Lean structures whose fields are the cells the
  verified code reads or writes; an absent cell is an Option none or the
  empty string, matching how the source treats undefined cells.
- Asynchronous handlers become pure state-transition functions; external
  calls that can fail (the Stripe gateway, the ledger scan) are modelled by
  an explicit parameter giving the call outcome.
-/

namespace Senkisem

/-- One cart line as submitted by the client: a numeric product id, a unit
price, an optional quantity (the source treats a missing or zero quantity
as 1 via the JS expression item.quantity or 1), an optional size and a
display name. -/
structure CartItem where
  id : Int
  price : Rat
  quantity : Option Nat := none
  size : Option String := none
  name : String := ""
deriving Repr, DecidableEq

/-- Effective quantity of a line: the source computes item.quantity or 1,
so an absent or zero quantity counts as one. -/
def jsQuantity (item : CartItem) : Nat :=
  match item.quantity with
  | none => 1
  | some q => if q = 0 then 1 else q

/-- The configured digital product id set, the ebookIds constant repeated in
every server variant. -/
def ebookIds : List Int := [2, 4, 300]

/-- CONFIG.SHIPPING.HOME_DELIVERY_COST from server.js: 15 dollars. -/
def homeDeliveryCost : Rat := 15

/-- calculateShippingCost from src/server.js lines 529-542 (identical in
part_003 lines 135-148, part_004 and part_005): zero when every cart item
is in the digital set or the method is digital, the fixed home cost when
the method is home, and zero otherwise. The shipping method is an Option
because customerData.shippingMethod may be absent. -/
def calculateShippingCost (cart : List CartItem) (shippingMethod : Option String) : Rat :=
  let isAllDigital := cart.all (fun item => ebookIds.contains item.id)
  if isAllDigital || shippingMethod = some ("digital") then 0
  else if shippingMethod = some ("home") then homeDeliveryCost
  else 0

/-- C7: for every cart and shipping method, an all-digital cart or a digital
method yields shipping cost 0, and a home method on a cart that is not
all-digital yields the fixed home-delivery amount 15; in particular an
all-digital cart yields 0 regardless of the requested method. -/
theorem shipping_cost_cases (cart : List CartItem) (m : Option String) :
    (cart.all (fun item => ebookIds.contains item.id) = true →
      calculateShippingCost cart m = 0) ∧
    (m = some ("digital") → calculateShippingCost cart m = 0) ∧
    (m = some ("home") → cart.all (fun item => ebookIds.contains item.id) = false →
      calculateShippingCost cart m = homeDeliveryCost) := by
  refine ⟨fun h => ?_, fun h => ?_, fun hm hd => ?_⟩
  · simp only [calculateShippingCost]
    rw [h]
    simp
  · simp [calculateShippingCost, h]
  · simp only [calculateShippingCost]
    rw [hd, hm]
    simp

/-- Witness for shipping_cost_cases: an all-digital cart (ids 2 and 300)
requested with method home still costs 0, and a physical cart (id 7) with
method home costs 15. -/
theorem shipping_cost_cases_witness :
    calculateShippingCost [{ id := 2, price := 10 }, { id := 300, price := 49 }]
      (some ("home")) = 0 ∧
    calculateShippingCost [{ id := 7, price := 25 }] (some ("home")) = homeDeliveryCost := by
  refine ⟨(shipping_cost_cases _ _).1 (by decide), ?_⟩
  exact (shipping_cost_cases [{ id := 7, price := 25 }] (some ("home"))).2.2 rfl (by decide)

/-- C10: a cart with at least one non-digital product id combined with any
shipping method other than home and digital (absent included) falls through
to the final branch of calculateShippingCost and returns 0. -/
theorem shipping_cost_default_branch (cart : List CartItem) (m : Option String)
    (hphys : cart.all (fun item => ebookIds.contains item.id) = false)
    (hdig : m ≠ some ("digital")) (hhome : m ≠ some ("home")) :
    calculateShippingCost cart m = 0 := by
  simp only [calculateShippingCost]
  rw [hphys]
  simp [hdig, hhome]

/-- Witness for shipping_cost_default_branch: a physical cart (id 7) with an
absent shipping method incurs zero shipping cost. -/
theorem shipping_cost_default_branch_witness :
    calculateShippingCost [{ id := 7, price := 25 }] none = 0 :=
  shipping_cost_default_branch [{ id := 7, price := 25 }] none (by decide)
    (by decide) (by decide)

/-- Value of a list of decimal digit characters, most significant first. -/
def digitsVal (cs : List Char) : Nat :=
  cs.foldl (fun acc c => acc * 10 + (c.toNat - 48)) 0

/-- Parse a maximal leading run of decimal digits; none when there is no
leading digit, mirroring how parseInt fails with NaN. -/
def parseLeadingDigits (cs : List Char) : Option Nat :=
  let ds := cs.takeWhile Char.isDigit
  if ds.isEmpty then none else some (digitsVal ds)

/-- JS parseInt with radix 10: skip leading whitespace, accept an optional
sign, then read a maximal run of decimal digits; none models NaN. -/
def jsParseInt (s : String) : Option Int :=
  let cs := s.data.dropWhile (fun c => c = ' ' || c = '\t' || c = '\n' || c = '\r')
  match cs with
  | '-' :: rest => (parseLeadingDigits rest).map (fun n => -(n : Int))
  | '+' :: rest => (parseLeadingDigits rest).map (fun n => (n : Int))
  | _ => (parseLeadingDigits cs).map (fun n => (n : Int))

/-- JS String.prototype.padStart(3, the zero character): left-pad to length
three with zeros. -/
def padStart3 (s : String) : String :=
  String.mk (List.replicate (3 - s.data.length) '0') ++ s

/-- JS String.prototype.slice(-3): the final three characters, or the whole
string when it is shorter. -/
def sliceLast3 (s : String) : String :=
  String.mk (s.data.drop (s.data.length - 3))

/-- Whether the first character list is an initial segment of the second. -/
def startsWithChars : List Char → List Char → Bool
  | [], _ => true
  | _ :: _, [] => false
  | p :: ps, c :: cs => p == c && startsWithChars ps cs

/-- JS String.prototype.startsWith on the underlying character lists. -/
def jsStartsWith (s pat : String) : Bool :=
  startsWithChars pat.data s.data

/-- Whether the second character list occurs as a contiguous run of the
first. -/
def containsSubChars : List Char → List Char → Bool
  | [], pat => pat.isEmpty
  | c :: rest, pat => startsWithChars pat (c :: rest) || containsSubChars rest pat

/-- JS String.prototype.includes on the underlying character lists. -/
def jsIncludes (s pat : String) : Bool :=
  containsSubChars s.data pat.data

/-- Drop the first n characters of a string. -/
def jsDropChars (s : String) (n : Nat) : String :=
  String.mk (s.data.drop n)

/-- One row of the Orders ledger tab, restricted to the cells the verified
code reads: the date cell, the session id cell, the status cell and the
invoice-number cell (absent in rows written before invoicing existed). -/
structure OrderRow where
  datum : String := ""
  rendelesId : String := ""
  statusz : String := ""
  szamlaSzam : Option String := none
deriving Repr, DecidableEq

/-- The loop of getNextInvoiceNumber in src/server.js lines 104-115: fold
over the rows keeping the largest parsed suffix of any invoice-number cell
that starts with the year prefix; non-matching and absent cells leave the
accumulator unchanged. -/
def maxInvoiceNumber (rows : List OrderRow) : Int :=
  rows.foldl
    (fun maxN row =>
      match row.szamlaSzam with
      | some inv =>
        if jsStartsWith inv ("E-SEN-2026-") then
          match jsParseInt (jsDropChars inv 11) with
          | some n => if n > maxN then n else maxN
          | none => maxN
        else maxN
      | none => maxN)
    0

/-- getNextInvoiceNumber from src/server.js lines 98-124, success path: one
plus the maximal existing suffix, zero-padded to three digits behind the
year prefix. -/
def getNextInvoiceNumberOk (rows : List OrderRow) : String :=
  ("E-SEN-2026-") ++ padStart3 (toString (maxInvoiceNumber rows + 1))

/-- getNextInvoiceNumber including its failure branch (src/server.js lines
120-123): when the ledger scan fails the function returns the literal
string E-SEN-2026-001. The scan outcome is the Option argument. -/
def getNextInvoiceNumber (scan : Option (List OrderRow)) : String :=
  match scan with
  | some rows => getNextInvoiceNumberOk rows
  | none => "E-SEN-2026-001"

/-- The filter-map pipeline of part_003 lines 113-117: the invoice-number
cells that start with the year prefix, each parsed to its numeric suffix,
unparsable ones dropped. -/
def parsedSuffixes (rows : List OrderRow) : List Int :=
  ((rows.filterMap OrderRow.szamlaSzam).filter
      (fun num => jsStartsWith num ("E-SEN-2026-"))).filterMap
    (fun num => jsParseInt (jsDropChars num 11))

/-- generateNextInvoiceNumber from part_003 lines 108-130 (same in
part_004), success path: collect the parsed suffixes of cells starting with
the year prefix, take their plain maximum when any exist (0 otherwise — the
source computes Math.max over the list with no zero floor), add one and
pad. -/
def generateNextInvoiceNumberOk (rows : List OrderRow) : String :=
  let invoiceNumbers := parsedSuffixes rows
  let maxNumber :=
    if invoiceNumbers.length > 0 then invoiceNumbers.foldl max (invoiceNumbers.headD 0) else 0
  ("E-SEN-2026-") ++ padStart3 (toString (maxNumber + 1))

/-- generateNextInvoiceNumber including its failure branch (part_003 lines
126-129): on a failed scan it returns the year prefix followed by the last
three characters of the decimal epoch-millisecond timestamp. -/
def generateNextInvoiceNumber (scan : Option (List OrderRow)) (nowMs : Nat) : String :=
  match scan with
  | some rows => generateNextInvoiceNumberOk rows
  | none => ("E-SEN-2026-") ++ sliceLast3 (toString nowMs)

/-- generateInvoiceNumber from part_005 lines 95-112, success path: count
the rows whose date cell contains 2026 and use count plus one as the
suffix; the invoice-number cells are never consulted. -/
def generateInvoiceNumber (rows : List OrderRow) : String :=
  let invoiceCount := (rows.filter (fun row => jsIncludes row.datum ("2026"))).length
  ("E-SEN-2026-") ++ padStart3 (toString (invoiceCount + 1))

/-- Contribution of one row to the allocator maximum, following the spec
wording: the parsed numeric suffix of an invoice-number cell matching the
year-scoped pattern, with a non-matching or absent cell contributing 0. -/
def specSuffixContribution (row : OrderRow) : Int :=
  match row.szamlaSzam with
  | some inv =>
    if jsStartsWith inv ("E-SEN-2026-") then
      match jsParseInt (jsDropChars inv 11) with
      | some n => n
      | none => 0
    else 0
  | none => 0

/-- The allocator loop body equals taking the maximum with the per-row
contribution, for any non-negative accumulator. -/
theorem maxInvoiceNumber_foldl (rows : List OrderRow) (acc : Int) (hacc : 0 ≤ acc) :
    rows.foldl
      (fun maxN row =>
        match row.szamlaSzam with
        | some inv =>
          if jsStartsWith inv ("E-SEN-2026-") then
            match jsParseInt (jsDropChars inv 11) with
            | some n => if n > maxN then n else maxN
            | none => maxN
          else maxN
        | none => maxN)
      acc
    = rows.foldl (fun maxN row => max maxN (specSuffixContribution row)) acc := by
  induction rows generalizing acc with
  | nil => rfl
  | cons r rest ih =>
    have hstep :
        (match r.szamlaSzam with
          | some inv =>
            if jsStartsWith inv ("E-SEN-2026-") then
              match jsParseInt (jsDropChars inv 11) with
              | some n => if n > acc then n else acc
              | none => acc
            else acc
          | none => acc)
        = max acc (specSuffixContribution r) := by
      unfold specSuffixContribution
      cases r.szamlaSzam with
      | none => simp [hacc]
      | some inv =>
        by_cases hp : jsStartsWith inv ("E-SEN-2026-")
        · simp only [hp, if_pos]
          cases jsParseInt (jsDropChars inv 11) with
          | none => simp [hacc]
          | some n =>
            by_cases hn : n > acc
            · simp [hn, max_eq_right (le_of_lt hn)]
            · simp [hn, max_eq_left (not_lt.mp hn)]
        · simp [hp, hacc]
    simp only [List.foldl_cons, hstep]
    exact ih (max acc (specSuffixContribution r)) (le_trans hacc (le_max_left _ _))

/-- Unfolding of the part_003 suffix pipeline over a leading row. -/
theorem parsedSuffixes_cons (r : OrderRow) (rest : List OrderRow) :
    parsedSuffixes (r :: rest)
      = (match r.szamlaSzam with
          | some inv =>
            if jsStartsWith inv ("E-SEN-2026-") then
              match jsParseInt (jsDropChars inv 11) with
              | some n => n :: parsedSuffixes rest
              | none => parsedSuffixes rest
            else parsedSuffixes rest
          | none => parsedSuffixes rest) := by
  unfold parsedSuffixes
  cases hs : r.szamlaSzam with
  | none => simp [List.filterMap_cons, hs]
  | some inv =>
    by_cases hp : jsStartsWith inv ("E-SEN-2026-") = true
    · cases hn : jsParseInt (jsDropChars inv 11) with
      | none => simp [List.filterMap_cons, List.filter_cons, hs, hp, hn]
      | some n => simp [List.filterMap_cons, List.filter_cons, hs, hp, hn]
    · simp [List.filterMap_cons, List.filter_cons, hs, hp]

/-- Folding the per-row contribution maximum over the ledger equals folding
the plain maximum over the parsed-suffix list, for any non-negative
accumulator: rows without a parsed suffix contribute 0, which a
non-negative accumulator absorbs. -/
theorem foldl_max_parsedSuffixes (rows : List OrderRow) (acc : Int) (hacc : 0 ≤ acc) :
    rows.foldl (fun maxN row => max maxN (specSuffixContribution row)) acc
      = (parsedSuffixes rows).foldl max acc := by
  induction rows generalizing acc with
  | nil => rfl
  | cons r rest ih =>
    rw [List.foldl_cons, parsedSuffixes_cons]
    cases hs : r.szamlaSzam with
    | none =>
      have hc : specSuffixContribution r = 0 := by
        unfold specSuffixContribution
        rw [hs]
      rw [hc, max_eq_left hacc]
      exact ih acc hacc
    | some inv =>
      by_cases hp : jsStartsWith inv ("E-SEN-2026-") = true
      · cases hn : jsParseInt (jsDropChars inv 11) with
        | none =>
          have hc : specSuffixContribution r = 0 := by
            unfold specSuffixContribution
            rw [hs]
            simp [hp, hn]
          rw [hc, max_eq_left hacc]
          simp only [hp, if_true, hn]
          exact ih acc hacc
        | some n =>
          have hc : specSuffixContribution r = n := by
            unfold specSuffixContribution
            rw [hs]
            simp [hp, hn]
          rw [hc]
          simp only [hp, if_true, hn, List.foldl_cons]
          exact ih (max acc n) (le_trans hacc (le_max_left _ _))
      · have hc : specSuffixContribution r = 0 := by
          unfold specSuffixContribution
          rw [hs]
          simp [hp]
        rw [hc, max_eq_left hacc]
        simp only [hp, if_false]
        exact ih acc hacc

/-- The guarded Math.max of part_003 equals a plain maximum fold from 0
whenever every parsed suffix is non-negative. -/
theorem part003_max_eq (L : List Int) (hL : ∀ n ∈ L, 0 ≤ n) :
    (if L.length > 0 then L.foldl max (L.headD 0) else 0) = L.foldl max 0 := by
  cases L with
  | nil => rfl
  | cons a t =>
    have ha : 0 ≤ a := hL a (List.mem_cons_self a t)
    simp only [List.length_cons, List.headD_cons, List.foldl_cons]
    rw [if_pos (Nat.succ_pos t.length), max_self, max_eq_right ha]

/-- C2 amended: the src/server.js allocator equals the spec formula (one
plus the maximum per-row suffix contribution, zero-padded), its result is a
function of the invoice-number cells alone, and a ledger whose rows all
contribute 0 (no matching invoice-number cell) yields E-SEN-2026-001. The
part_003/part_004 allocator generateNextInvoiceNumber takes the plain
Math.max of the parsed suffixes with no zero floor: it agrees with the
server.js allocator on every ledger whose parsed suffixes are all
non-negative, but on the cell E-SEN-2026--5 (parsed suffix minus five) it
answers E-SEN-2026-0-4 while server.js answers E-SEN-2026-001. The
part_005 variant generateInvoiceNumber follows neither formula: it counts
rows by date instead (see the counterexample). -/
theorem invoice_allocator_amended (rows rows' : List OrderRow) :
    (getNextInvoiceNumberOk rows =
      ("E-SEN-2026-") ++
        padStart3 (toString (rows.foldl (fun maxN row => max maxN (specSuffixContribution row)) 0 + 1))) ∧
    (rows.map OrderRow.szamlaSzam = rows'.map OrderRow.szamlaSzam →
      getNextInvoiceNumberOk rows = getNextInvoiceNumberOk rows') ∧
    ((∀ r ∈ rows, specSuffixContribution r = 0) →
      getNextInvoiceNumberOk rows = "E-SEN-2026-001") ∧
    ((∀ n ∈ parsedSuffixes rows, 0 ≤ n) →
      generateNextInvoiceNumberOk rows = getNextInvoiceNumberOk rows) ∧
    (generateNextInvoiceNumberOk [{ szamlaSzam := some ("E-SEN-2026--5") }]
        = "E-SEN-2026-0-4" ∧
      getNextInvoiceNumberOk [{ szamlaSzam := some ("E-SEN-2026--5") }]
        = "E-SEN-2026-001") := by
  have hfold : ∀ rs : List OrderRow,
      maxInvoiceNumber rs = rs.foldl (fun maxN row => max maxN (specSuffixContribution row)) 0 :=
    fun rs => maxInvoiceNumber_foldl rs 0 le_rfl
  refine ⟨?_, ?_, ?_, ?_, by decide, by decide⟩
  · unfold getNextInvoiceNumberOk
    rw [hfold]
  · intro hcells
    have hmax : maxInvoiceNumber rows = maxInvoiceNumber rows' := by
      rw [hfold, hfold]
      have hrw : ∀ rs : List OrderRow,
          rs.foldl (fun maxN row => max maxN (specSuffixContribution row)) 0
            = (rs.map OrderRow.szamlaSzam).foldl
                (fun maxN cell => max maxN (specSuffixContribution { szamlaSzam := cell })) 0 := by
        intro rs
        rw [List.foldl_map]
        rfl
      rw [hrw, hrw, hcells]
    unfold getNextInvoiceNumberOk
    rw [hmax]
  · intro hzero
    have hmax : maxInvoiceNumber rows = 0 := by
      rw [hfold]
      have : ∀ rs : List OrderRow, (∀ r ∈ rs, specSuffixContribution r = 0) →
          rs.foldl (fun maxN row => max maxN (specSuffixContribution row)) 0 = 0 := by
        intro rs
        induction rs with
        | nil => intro _; rfl
        | cons r rest ih =>
          intro h
          have hr : specSuffixContribution r = 0 := h r (List.mem_cons_self r rest)
          simp only [List.foldl_cons, hr, max_self]
          exact ih (fun x hx => h x (List.mem_cons_of_mem r hx))
      exact this rows hzero
    unfold getNextInvoiceNumberOk
    rw [hmax]
    rfl
  · intro hL
    unfold generateNextInvoiceNumberOk getNextInvoiceNumberOk
    dsimp only
    rw [part003_max_eq (parsedSuffixes rows) hL, hfold,
      foldl_max_parsedSuffixes rows 0 le_rfl]

/-- Witness for invoice_allocator_amended: on a ledger holding suffixes 004
and 002 plus a non-matching cell, the server.js allocator answers
E-SEN-2026-005 and the part_003/part_004 allocator agrees (the suffixes are
non-negative); two ledgers sharing the invoice-number cells agree; and the
empty ledger yields E-SEN-2026-001. -/
theorem invoice_allocator_amended_witness :
    getNextInvoiceNumberOk
        [{ szamlaSzam := some ("E-SEN-2026-004") },
         { szamlaSzam := some ("INV-77") },
         { szamlaSzam := some ("E-SEN-2026-002") }]
      = "E-SEN-2026-005" ∧
    generateNextInvoiceNumberOk
        [{ szamlaSzam := some ("E-SEN-2026-004") },
         { szamlaSzam := some ("INV-77") },
         { szamlaSzam := some ("E-SEN-2026-002") }]
      = getNextInvoiceNumberOk
        [{ szamlaSzam := some ("E-SEN-2026-004") },
         { szamlaSzam := some ("INV-77") },
         { szamlaSzam := some ("E-SEN-2026-002") }] ∧
    getNextInvoiceNumberOk [{ datum := ("a"), szamlaSzam := some ("E-SEN-2026-004") }]
      = getNextInvoiceNumberOk [{ datum := ("b"), szamlaSzam := some ("E-SEN-2026-004") }] ∧
    getNextInvoiceNumberOk [] = "E-SEN-2026-001" := by
  refine ⟨?_, ?_, ?_, ?_⟩
  · have h := (invoice_allocator_amended
      [{ szamlaSzam := some ("E-SEN-2026-004") },
       { szamlaSzam := some ("INV-77") },
       { szamlaSzam := some ("E-SEN-2026-002") }] []).1
    rw [h]
    decide
  · exact (invoice_allocator_amended
      [{ szamlaSzam := some ("E-SEN-2026-004") },
       { szamlaSzam := some ("INV-77") },
       { szamlaSzam := some ("E-SEN-2026-002") }] []).2.2.2.1 (by decide)
  · exact (invoice_allocator_amended
      [{ datum := ("a"), szamlaSzam := some ("E-SEN-2026-004") }]
      [{ datum := ("b"), szamlaSzam := some ("E-SEN-2026-004") }]).2.1 (by decide)
  · exact (invoice_allocator_amended [] []).2.2.1 (by intro r hr; cases hr)

/-- C2 counterexample: the part_005 allocator generateInvoiceNumber, run on
a ledger whose single row has a 2026 date and no invoice-number cell (so
every row contributes 0 and the claim demands E-SEN-2026-001), returns
E-SEN-2026-002 because it counts rows by date. -/
theorem invoice_allocator_cex :
    generateInvoiceNumber [{ datum := ("2026. 01. 05. 10:00:00") }] = "E-SEN-2026-002" ∧
    specSuffixContribution { datum := ("2026. 01. 05. 10:00:00") } = 0 ∧
    ("E-SEN-2026-002" : String) ≠ "E-SEN-2026-001" := by
  refine ⟨by decide, by decide, by decide⟩

/-- Left-cancellation for string append, through the underlying character
lists. -/
theorem string_append_left_cancel (p a b : String) (h : p ++ a = p ++ b) : a = b := by
  apply String.ext
  have hd := congrArg String.data h
  rw [String.data_append, String.data_append] at hd
  exact List.append_cancel_left hd

/-- C6 amended: the part_003/part_004 allocator never raises on a failed
scan; it falls back to the year prefix followed by the final three
characters of the epoch-millisecond timestamp, so failures whose timestamps
end in different character triples produce different identifiers. The
src/server.js allocator getNextInvoiceNumber instead falls back to the
fixed constant E-SEN-2026-001 on every failure, which moreover coincides
with the first regularly allocated number. -/
theorem invoice_fallback_amended (t₁ t₂ : Nat)
    (h : sliceLast3 (toString t₁) ≠ sliceLast3 (toString t₂)) :
    generateNextInvoiceNumber none t₁ = ("E-SEN-2026-") ++ sliceLast3 (toString t₁) ∧
    generateNextInvoiceNumber none t₁ ≠ generateNextInvoiceNumber none t₂ ∧
    getNextInvoiceNumber none = "E-SEN-2026-001" := by
  refine ⟨rfl, ?_, rfl⟩
  intro heq
  exact h (string_append_left_cancel ("E-SEN-2026-") _ _ heq)

/-- Witness for invoice_fallback_amended: failures at epoch milliseconds
1700000000123 and 1700000000456 produce the distinct fallback identifiers
E-SEN-2026-123 and E-SEN-2026-456. -/
theorem invoice_fallback_amended_witness :
    generateNextInvoiceNumber none 1700000000123 = "E-SEN-2026-123" ∧
    generateNextInvoiceNumber none 1700000000123 ≠ generateNextInvoiceNumber none 1700000000456 := by
  have h := invoice_fallback_amended 1700000000123 1700000000456 (by decide)
  exact ⟨by rw [h.1]; decide, h.2.1⟩

/-- C6 counterexample: the src/server.js allocator fallback is the fixed
constant E-SEN-2026-001 — it consumes no timestamp and repeats the same
identifier on every failure, and that identifier equals the one allocated
on an empty ledger, so it is not collision-avoiding. -/
theorem invoice_fallback_cex :
    getNextInvoiceNumber none = "E-SEN-2026-001" ∧
    getNextInvoiceNumber none = getNextInvoiceNumber (some []) := by
  refine ⟨rfl, by decide⟩

/-- LINK_EXPIRY_DAYS from part_007 line 18. -/
def linkExpiryDays : Nat := 7

/-- The expiry offset added to the issuance time, in milliseconds:
LINK_EXPIRY_DAYS * 24 * 60 * 60 * 1000. -/
def linkExpiryMs : Int := linkExpiryDays * 24 * 60 * 60 * 1000

/-- One row of the Download_Links ledger tab (part_007 lines 46-56). The
Created, Expiry and Download_Date cells hold timestamps, modelled as epoch
milliseconds; Download_Date is none while the cell is still empty. The Used
cell holds the literal strings TRUE or FALSE. -/
structure TokenRow where
  token : String
  email : String := ""
  productIds : String := ""
  created : Int := 0
  used : String := "FALSE"
  expiry : Int := 0
  ipAddress : String := ""
  downloadDate : Option Int := none
  invoiceNumber : String := ""
deriving Repr, DecidableEq

/-- Result of validateDownloadToken: either an invalid verdict carrying the
reason string of the source object, or a valid verdict carrying the parsed
productId, the bound email and the matched row. -/
inductive ValidationResult where
  | invalid (reason : String)
  | valid (productId : Option Int) (email : String) (row : TokenRow)
deriving Repr, DecidableEq

/-- validateDownloadToken from part_007 lines 137-193: look the token up;
a missing row yields the invalid reason string written at line 148, a row
whose Used cell is TRUE yields already-used, a row past its expiry yields
expired, and otherwise the verdict is valid with the parsed product id and
email. The checks run in exactly this order. -/
def validateDownloadToken (rows : List TokenRow) (token : String) (now : Int) :
    ValidationResult :=
  match rows.find? (fun x => x.token == token) with
  | none => .invalid ("invalid")
  | some r =>
    if r.used = ("TRUE") then .invalid ("already-used")
    else if now > r.expiry then .invalid ("expired")
    else .valid (jsParseInt r.productIds) r.email r

/-- getProductFilePath from part_007 lines 217-224: a two-entry map from
product id to ebook path, null for anything else (including an unparsable
Product_IDs cell). -/
def getProductFilePath (productId : Option Int) : Option String :=
  match productId with
  | some 2 => some ("./ebooks/product_2.pdf")
  | some 4 => some ("./ebooks/product_4.pdf")
  | _ => none

/-- getProductFileName from part_007 lines 229-236. -/
def getProductFileName (productId : Option Int) : String :=
  match productId with
  | some 2 => "Senkisem_Notes_From_a_Stranger.pdf"
  | some 4 => "Senkisem_User_Manual_for_Life.pdf"
  | _ => "ebook.pdf"

/-- markTokenAsUsed from part_007 lines 198-212: flip the Used cell of the
row holding the token to TRUE and record the requester ip and the download
time. The source mutates the single found row object; here the first row
holding the token is replaced. -/
def markTokenAsUsed (rows : List TokenRow) (token ip : String) (now : Int) : List TokenRow :=
  match rows with
  | [] => []
  | r :: rest =>
    if r.token = token then
      { r with used := ("TRUE"), ipAddress := ip, downloadDate := some now } :: rest
    else
      r :: markTokenAsUsed rest token ip now

/-- Outcome of the download route: a redirect to the error page carrying a
reason code, or a served file with its download name. -/
inductive DownloadResponse where
  | redirectError (reason : String)
  | fileDownload (filePath fileName : String)
deriving Repr, DecidableEq

/-- The download route from part_004 lines 403-449 (identical in part_003
lines 475-516): validate the token; on an invalid verdict redirect with the
reason; resolve the product file path and check existence (the files
argument lists the paths present on disk); when the path is null or the
file absent redirect with server-error, leaving the rows untouched; only
then mark the token used and serve the file. -/
def handleDownload (rows : List TokenRow) (files : List String) (token ip : String)
    (now : Int) : DownloadResponse × List TokenRow :=
  match validateDownloadToken rows token now with
  | .invalid reason => (.redirectError reason, rows)
  | .valid pid _ r =>
    match getProductFilePath pid with
    | none => (.redirectError ("server-error"), rows)
    | some fp =>
      if files.contains fp then
        (.fileDownload fp (getProductFileName pid), markTokenAsUsed rows r.token ip now)
      else
        (.redirectError ("server-error"), rows)

/-- generateDownloadToken from part_007 lines 71-99: the persisted row for
a fresh token, Used FALSE, empty ip and download date, expiry exactly the
issuance time plus the 7-day offset. The random
uuid is the tok argument. -/
def generateDownloadToken (tok email : String) (productId : Int) (invoiceNumber : String)
    (now : Int) : TokenRow :=
  { token := tok
    email := email
    productIds := toString productId
    created := now
    used := ("FALSE")
    expiry := now + linkExpiryMs
    ipAddress := ""
    downloadDate := none
    invoiceNumber := invoiceNumber }

/-- generateDownloadLinks from part_007 lines 104-132: issue a token bound
to product 2 when the cart has a line with id 2 or the bundle id 300, and a
token bound to product 4 when it has a line with id 4 or the bundle; the
result pairs the persisted rows with the named links. The two uuids are the
tok2 and tok4 arguments. -/
def generateDownloadLinks (cart : List CartItem) (email invoiceNumber domain : String)
    (now : Int) (tok2 tok4 : String) : List TokenRow × List (String × String) :=
  let hasProduct2 := cart.any (fun item => item.id == 2)
  let hasProduct4 := cart.any (fun item => item.id == 4)
  let hasBundle := cart.any (fun item => item.id == 300)
  let for2 :=
    if hasProduct2 || hasBundle then
      ([generateDownloadToken tok2 email 2 invoiceNumber now],
        [(("product2"), domain ++ ("/download/") ++ tok2)])
    else ([], [])
  let for4 :=
    if hasProduct4 || hasBundle then
      ([generateDownloadToken tok4 email 4 invoiceNumber now],
        [(("product4"), domain ++ ("/download/") ++ tok4)])
    else ([], [])
  (for2.1 ++ for4.1, for2.2 ++ for4.2)

/-- C3 counterexample: for a token no stored row holds, validateDownloadToken
returns the invalid verdict with reason string invalid, not the reason
not-found stated by the claim. -/
theorem validate_reason_cex :
    validateDownloadToken [] ("deadbeef") 0 = .invalid ("invalid") ∧
    ValidationResult.invalid ("invalid") ≠ ValidationResult.invalid ("not-found") := by
  exact ⟨rfl, by decide⟩

/-- C3 amended: validation returns reason invalid (not not-found) when no
row holds the token, already-used when the matched row has Used TRUE (this
check precedes the expiry check), expired when the row is unused but the
current time is past its expiry, and otherwise the valid verdict with the
bound product id and email. -/
theorem validate_amended (rows : List TokenRow) (token : String) (now : Int) :
    (rows.find? (fun x => x.token == token) = none →
      validateDownloadToken rows token now = .invalid ("invalid")) ∧
    (∀ r, rows.find? (fun x => x.token == token) = some r → r.used = ("TRUE") →
      validateDownloadToken rows token now = .invalid ("already-used")) ∧
    (∀ r, rows.find? (fun x => x.token == token) = some r → r.used ≠ ("TRUE") →
      now > r.expiry →
      validateDownloadToken rows token now = .invalid ("expired")) ∧
    (∀ r, rows.find? (fun x => x.token == token) = some r → r.used ≠ ("TRUE") →
      ¬ now > r.expiry →
      validateDownloadToken rows token now = .valid (jsParseInt r.productIds) r.email r) := by
  refine ⟨fun h => ?_, fun r h hu => ?_, fun r h hu he => ?_, fun r h hu he => ?_⟩
  · unfold validateDownloadToken
    rw [h]
  · unfold validateDownloadToken
    rw [h]
    simp [hu]
  · unfold validateDownloadToken
    rw [h]
    simp [hu, he]
  · unfold validateDownloadToken
    rw [h]
    simp [hu, he]

/-- Witness for validate_amended: a token whose Used cell is FALSE but whose
7-day expiry (epoch ms 604800000) has passed at epoch ms 604800001 yields
reason expired. -/
theorem validate_amended_witness :
    validateDownloadToken [{ token := ("t1"), used := ("FALSE"), expiry := 604800000 }]
      ("t1") 604800001 = .invalid ("expired") :=
  (validate_amended [{ token := ("t1"), used := ("FALSE"), expiry := 604800000 }]
      ("t1") 604800001).2.2.1
    { token := ("t1"), used := ("FALSE"), expiry := 604800000 }
    (by decide) (by decide) (by decide)

/-- C4: when validation succeeds but the product file is unresolvable or
absent from disk, the download route answers a server-error redirect and
returns the token rows unchanged: the Used flag, ip and download date of
the validated row keep their prior values, so the one-time token is not
burned by the server-side file error. -/
theorem download_no_burn_on_missing_file (rows : List TokenRow) (files : List String)
    (token ip : String) (now : Int) (pid : Option Int) (em : String) (r : TokenRow)
    (hval : validateDownloadToken rows token now = .valid pid em r)
    (hfile : ∀ fp, getProductFilePath pid = some fp → files.contains fp = false) :
    handleDownload rows files token ip now = (.redirectError ("server-error"), rows) := by
  unfold handleDownload
  rw [hval]
  dsimp only
  cases hfp : getProductFilePath pid with
  | none => rfl
  | some fp =>
    have hnotmem : fp ∉ files := by
      have := hfile fp hfp
      simpa using this
    simp [hnotmem]

/-- Witness for download_no_burn_on_missing_file: a valid unused token bound
to product 2 requested while the ebook file is absent from disk yields the
server-error redirect and the stored row is untouched. -/
theorem download_no_burn_on_missing_file_witness :
    handleDownload [{ token := ("t1"), productIds := ("2"), used := ("FALSE"), expiry := 100 }]
      [] ("t1") ("203.0.113.9") 0
    = (.redirectError ("server-error"),
        [{ token := ("t1"), productIds := ("2"), used := ("FALSE"), expiry := 100 }]) :=
  download_no_burn_on_missing_file
    [{ token := ("t1"), productIds := ("2"), used := ("FALSE"), expiry := 100 }]
    [] ("t1") ("203.0.113.9") 0 (some 2) ""
    { token := ("t1"), productIds := ("2"), used := ("FALSE"), expiry := 100 }
    (by decide) (by intro fp hfp; rfl)

/-- C5 counterexample: a digital order whose cart holds two separate lines
with product id 2 has two digital product lines, yet token issuance
persists a single token row, refuting one row per digital product line. -/
theorem token_issuance_cex :
    ((generateDownloadLinks
        [{ id := 2, price := 10 }, { id := 2, price := 10, name := ("second line") }]
        ("a@b.c") ("E-SEN-2026-001") ("https://senkisem.com") 0 ("tokA") ("tokB")).1).length
      = 1 ∧
    (([{ id := 2, price := 10 }, { id := 2, price := 10, name := ("second line") }] :
        List CartItem).filter (fun item => ebookIds.contains item.id)).length = 2 ∧
    (1 : Nat) ≠ 2 := by
  refine ⟨by decide, by decide, by decide⟩

/-- C5 amended: every persisted token row has Used FALSE, empty ip and
download-date cells, and expiry exactly the creation time plus 7 days; the
rows are keyed by product rather than by cart line: a cart containing the
bundle id 300 yields exactly two rows, one bound to product 2 and one to
product 4, while repeated lines of one product collapse to a single row. -/
theorem token_issuance_amended (cart : List CartItem) (email invoiceNumber domain : String)
    (now : Int) (tok2 tok4 : String) :
    (∀ r ∈ (generateDownloadLinks cart email invoiceNumber domain now tok2 tok4).1,
        r.used = ("FALSE") ∧ r.downloadDate = none ∧ r.ipAddress = "" ∧
        r.created = now ∧ r.expiry = now + linkExpiryMs) ∧
    (cart.any (fun item => item.id == 300) = true →
      ((generateDownloadLinks cart email invoiceNumber domain now tok2 tok4).1).map
          (fun r => r.productIds)
        = [toString (2 : Int), toString (4 : Int)]) := by
  constructor
  · intro r hr
    unfold generateDownloadLinks at hr
    simp only [] at hr
    rcases List.mem_append.mp hr with h | h
    · by_cases hc : (cart.any (fun item => item.id == 2) || cart.any (fun item => item.id == 300)) = true
      · rw [if_pos hc] at h
        simp only [List.mem_singleton] at h
        subst h
        exact ⟨rfl, rfl, rfl, rfl, rfl⟩
      · rw [if_neg hc] at h
        cases h
    · by_cases hc : (cart.any (fun item => item.id == 4) || cart.any (fun item => item.id == 300)) = true
      · rw [if_pos hc] at h
        simp only [List.mem_singleton] at h
        subst h
        exact ⟨rfl, rfl, rfl, rfl, rfl⟩
      · rw [if_neg hc] at h
        cases h
  · intro hb
    unfold generateDownloadLinks
    simp only [hb, Bool.or_true, if_pos]
    rfl

/-- Witness for token_issuance_amended: a bundle-only cart yields exactly
the rows bound to products 2 and 4, and the row issued for product 2 has
Used FALSE and expiry equal to issuance time 1000 plus the 7-day offset. -/
theorem token_issuance_amended_witness :
    ((generateDownloadLinks [{ id := 300, price := 49 }] ("a@b.c") ("E-SEN-2026-007")
        ("https://senkisem.com") 1000 ("tokA") ("tokB")).1).map (fun r => r.productIds)
      = [toString (2 : Int), toString (4 : Int)] ∧
    (generateDownloadToken ("tokA") ("a@b.c") 2 ("E-SEN-2026-007") 1000).used = ("FALSE") ∧
    (generateDownloadToken ("tokA") ("a@b.c") 2 ("E-SEN-2026-007") 1000).expiry
      = 1000 + linkExpiryMs := by
  have h := token_issuance_amended [{ id := 300, price := 49 }] ("a@b.c") ("E-SEN-2026-007")
    ("https://senkisem.com") 1000 ("tokA") ("tokB")
  have hmem := h.1 (generateDownloadToken ("tokA") ("a@b.c") 2 ("E-SEN-2026-007") 1000)
    (by decide)
  exact ⟨h.2 (by decide), hmem.1, hmem.2.2.2.2⟩

/-- The cart reduce shared by saveOrderToSheets and the webhook (part_003
lines 204-209 and 428-433, src/server.js lines 554-559): left fold of unit
price times effective quantity. -/
def productTotal (cart : List CartItem) : Rat :=
  cart.foldl (fun sum item => sum + item.price * (jsQuantity item : Rat)) 0

/-- The totals-related cells of the Orders row written by saveOrderToSheets,
as numeric values before the toFixed display formatting, plus the initial
status and the session id cell. -/
structure SavedOrderRow where
  osszeg : Rat
  szallitasiDij : Rat
  vegosszeg : Rat
  statusz : String
  rendelesId : String
deriving Repr, DecidableEq

/-- saveOrderToSheets from src/server.js lines 547-654 (totals part,
identical in part_003 lines 194-276): the stored grand total is the product
total plus the computed shipping cost, and the row starts in the
awaiting-payment status. -/
def saveOrderToSheets (cart : List CartItem) (shippingMethod : Option String)
    (sessionId : String) : SavedOrderRow :=
  let totals := productTotal cart
  let shippingCost := calculateShippingCost cart shippingMethod
  { osszeg := totals
    szallitasiDij := shippingCost
    vegosszeg := totals + shippingCost
    statusz := ("Fizetésre vár")
    rendelesId := sessionId }

/-- The numeric content of the rendered invoice PDF (part_007 lines
285-592): one line total per cart row and the displayed grand total, which
the renderer prints from its totalAmount argument. -/
structure InvoicePdfSummary where
  lineTotals : List Rat
  grandTotal : Rat
deriving Repr, DecidableEq

/-- generateInvoicePDF from part_007, reduced to the numbers it prints: the
per-line totals recomputed from the cart and the grand total taken from the
totalAmount parameter. -/
def generateInvoicePDFSummary (cart : List CartItem) (totalAmount : Rat) : InvoicePdfSummary :=
  { lineTotals := cart.map (fun item => item.price * (jsQuantity item : Rat))
    grandTotal := totalAmount }

/-- The totalAmount the part_003 webhook recomputes from the cart (lines
428-436) and passes to the PDF renderer and the email. -/
def webhookInvoiceTotal (cart : List CartItem) (shippingMethod : Option String) : Rat :=
  productTotal cart + calculateShippingCost cart shippingMethod

/-- A left fold accumulating a mapped value is the accumulator plus the sum
of the mapped list. -/
theorem foldl_add_map (f : CartItem → Rat) (cart : List CartItem) (acc : Rat) :
    cart.foldl (fun sum item => sum + f item) acc = acc + (cart.map f).sum := by
  induction cart generalizing acc with
  | nil => simp
  | cons i rest ih =>
    simp only [List.foldl_cons, List.map_cons, List.sum_cons, ih, add_assoc]

/-- C8: the grand total stored in the ledger row equals the sum over cart
items of unit price times effective quantity plus the computed shipping
cost, and the grand total displayed on the invoice PDF generated for the
same order equals the stored one. -/
theorem totals_roundtrip (cart : List CartItem) (m : Option String) (sid : String) :
    (saveOrderToSheets cart m sid).vegosszeg
      = (cart.map (fun item => item.price * (jsQuantity item : Rat))).sum
        + calculateShippingCost cart m ∧
    (generateInvoicePDFSummary cart (webhookInvoiceTotal cart m)).grandTotal
      = (saveOrderToSheets cart m sid).vegosszeg := by
  constructor
  · show productTotal cart + calculateShippingCost cart m = _
    rw [productTotal, foldl_add_map, zero_add]
  · rfl

/-- State touched by the part_003 webhook: the Orders rows, the number of
confirmation emails handed to the notifier and the number of status cell
writes saved back to the ledger. -/
structure WebhookState where
  rows : List OrderRow
  emailsSent : Nat
  statusWrites : Nat
deriving Repr, DecidableEq

/-- The row.set plus row.save of the webhook: overwrite the status cell of
the first row holding the session id. -/
def setStatusFirst (rows : List OrderRow) (sid status : String) : List OrderRow :=
  match rows with
  | [] => []
  | r :: rest =>
    if r.rendelesId = sid then { r with statusz := status } :: rest
    else r :: setStatusFirst rest sid status

/-- The part_003 webhook handler for a signature-verified
checkout.session.completed event (lines 370-470): find the order row by
session id; when absent, acknowledge without touching anything; otherwise
unconditionally set the status cell to the paid marker and save, then, when
the session metadata carries the order data, run the downstream effects
(download links, PDF, confirmation email) — there is no check of the
current status before any of this. -/
def webhookCompleted (st : WebhookState) (sid : String) (hasOrderData : Bool) : WebhookState :=
  match st.rows.find? (fun x => x.rendelesId == sid) with
  | none => st
  | some _ =>
    let rows := setStatusFirst st.rows sid ("Fizetve ✅")
    if hasOrderData then
      { rows := rows, emailsSent := st.emailsSent + 1, statusWrites := st.statusWrites + 1 }
    else
      { rows := rows, emailsSent := st.emailsSent, statusWrites := st.statusWrites + 1 }

/-- Searching after a status overwrite finds the overwritten row. -/
theorem find?_setStatusFirst (rows : List OrderRow) (sid status : String) :
    (setStatusFirst rows sid status).find? (fun x => x.rendelesId == sid)
      = (rows.find? (fun x => x.rendelesId == sid)).map
          (fun r => { r with statusz := status }) := by
  induction rows with
  | nil => rfl
  | cons r rest ih =>
    by_cases hr : r.rendelesId = sid
    · simp [setStatusFirst, hr, List.find?_cons_of_pos]
    · have hb : (r.rendelesId == sid) = false := by simp [hr]
      simp [setStatusFirst, hr, List.find?_cons_of_neg, hb, ih]

/-- C1 counterexample: a ledger holding one order row for session cs_1 in
the awaiting-payment status, receiving the same signature-verified
payment-completed event twice, hands two confirmation emails to the
notifier, refuting at most one email send. -/
theorem webhook_idempotence_cex :
    (webhookCompleted
        (webhookCompleted
          { rows := [{ rendelesId := ("cs_1"), statusz := ("Fizetésre vár") }],
            emailsSent := 0, statusWrites := 0 }
          ("cs_1") true)
        ("cs_1") true).emailsSent = 2 ∧
    ¬ (2 : Nat) ≤ 1 := by
  refine ⟨by decide, by decide⟩

/-- C1 amended: delivering the same verified payment-completed event twice
for a session whose row exists leaves the row in the paid status (the
second overwrite is value-level idempotent), but the handler has no
already-paid guard: each delivery saves the status cell and runs the
downstream email, so two deliveries produce two status writes and two
confirmation emails rather than one. -/
theorem webhook_amended (st : WebhookState) (sid : String) (r : OrderRow)
    (h : st.rows.find? (fun x => x.rendelesId == sid) = some r) :
    ((webhookCompleted (webhookCompleted st sid true) sid true).rows.find?
        (fun x => x.rendelesId == sid)).map OrderRow.statusz = some ("Fizetve ✅") ∧
    (webhookCompleted (webhookCompleted st sid true) sid true).emailsSent
      = st.emailsSent + 2 ∧
    (webhookCompleted (webhookCompleted st sid true) sid true).statusWrites
      = st.statusWrites + 2 := by
  have h1 : webhookCompleted st sid true
      = { rows := setStatusFirst st.rows sid ("Fizetve ✅"),
          emailsSent := st.emailsSent + 1, statusWrites := st.statusWrites + 1 } := by
    unfold webhookCompleted
    rw [h]
    rfl
  have hfind1 : (setStatusFirst st.rows sid ("Fizetve ✅")).find?
      (fun x => x.rendelesId == sid) = some { r with statusz := ("Fizetve ✅") } := by
    rw [find?_setStatusFirst, h]
    rfl
  have h2 : webhookCompleted (webhookCompleted st sid true) sid true
      = { rows := setStatusFirst (setStatusFirst st.rows sid ("Fizetve ✅")) sid ("Fizetve ✅"),
          emailsSent := st.emailsSent + 2, statusWrites := st.statusWrites + 2 } := by
    rw [h1]
    unfold webhookCompleted
    dsimp only
    rw [hfind1]
    rfl
  refine ⟨?_, by rw [h2], by rw [h2]⟩
  rw [h2]
  dsimp only
  rw [find?_setStatusFirst, hfind1]
  rfl

/-- Witness for webhook_amended: the concrete one-row ledger of the
counterexample ends with the row paid, two status writes and two emails. -/
theorem webhook_amended_witness :
    ((webhookCompleted
        (webhookCompleted
          { rows := [{ rendelesId := ("cs_1"), statusz := ("Fizetésre vár") }],
            emailsSent := 0, statusWrites := 0 }
          ("cs_1") true)
        ("cs_1") true).rows.find? (fun x => x.rendelesId == ("cs_1"))).map OrderRow.statusz
      = some ("Fizetve ✅") ∧
    (webhookCompleted
        (webhookCompleted
          { rows := [{ rendelesId := ("cs_1"), statusz := ("Fizetésre vár") }],
            emailsSent := 0, statusWrites := 0 }
          ("cs_1") true)
        ("cs_1") true).statusWrites = 2 :=
  have h := webhook_amended
    { rows := [{ rendelesId := ("cs_1"), statusz := ("Fizetésre vár") }],
      emailsSent := 0, statusWrites := 0 }
    ("cs_1") { rendelesId := ("cs_1"), statusz := ("Fizetésre vár") } (by decide)
  ⟨h.1, h.2.2⟩

/-- Externally visible actions taken by the session-creation handlers, in
program order: the gateway session-creation call, the invoice-number
allocation, the ledger row append, the PDF render and the email send. -/
inductive SessionEffect where
  | stripeCreateSession
  | allocateInvoice
  | sheetsAppendRow
  | generatePdf
  | sendEmail
deriving Repr, DecidableEq

/-- The HTTP outcome of a session-creation request. -/
inductive HttpResponse where
  | ok
  | clientError (code : Nat) (msg : String)
  | serverError (msg : String)
deriving Repr, DecidableEq

/-- Whether a response is a 4xx validation rejection. -/
def isClientError : HttpResponse → Bool
  | .clientError _ _ => true
  | _ => false

/-- The src/server.js create-payment-session handler (lines 668-737) as an
effect trace: there is no cart validation; line items are built (throwing
product-not-found when a cart id is outside the catalog), then the gateway
session creation is attempted, then the ledger save with invoice
allocation, PDF and email run; any thrown error is answered with status
500. The stripeOk flag gives the gateway call outcome; the ledger and
notifier are taken as available. -/
def serverJsCreateSession (cart : List CartItem) (catalog : List Int) (stripeOk : Bool) :
    HttpResponse × List SessionEffect :=
  if cart.any (fun item => !(catalog.contains item.id)) then
    (.serverError ("Product not found"), [])
  else if stripeOk then
    (.ok,
      [.stripeCreateSession, .allocateInvoice, .sheetsAppendRow, .generatePdf, .sendEmail])
  else
    (.serverError ("stripe error"), [.stripeCreateSession])

/-- The part_001 create-payment-session handler (lines 306-435) as an
effect trace: an empty cart is rejected with 400 and the body Cart is
empty before any external call, missing customer data with 400, an unknown
product id with 500; otherwise only the gateway call runs (this variant
saves to the ledger from the webhook instead). -/
def loggingCreateSession (cart : List CartItem) (hasCustomerData : Bool) (catalog : List Int)
    (stripeOk : Bool) : HttpResponse × List SessionEffect :=
  if cart.isEmpty then (.clientError 400 ("Cart is empty"), [])
  else if !hasCustomerData then (.clientError 400 ("Missing customer data"), [])
  else if cart.any (fun item => !(catalog.contains item.id)) then
    (.serverError ("Product not found"), [])
  else if stripeOk then (.ok, [.stripeCreateSession])
  else (.serverError ("stripe error"), [.stripeCreateSession])

/-- C9 counterexample: the src/server.js handler given an empty cart does
not answer a 4xx validation error and is not side-effect free: with the
gateway call failing it answers 500 after attempting the session creation,
and with the gateway call succeeding it appends a ledger row, allocates an
invoice number and sends the email. -/
theorem empty_cart_cex :
    serverJsCreateSession [] [2, 4, 300] false
      = (.serverError ("stripe error"), [.stripeCreateSession]) ∧
    isClientError (serverJsCreateSession [] [2, 4, 300] false).1 = false ∧
    (serverJsCreateSession [] [2, 4, 300] false).2 ≠ [] ∧
    SessionEffect.sheetsAppendRow ∈ (serverJsCreateSession [] [2, 4, 300] true).2 ∧
    SessionEffect.sendEmail ∈ (serverJsCreateSession [] [2, 4, 300] true).2 := by
  refine ⟨rfl, rfl, by decide, by decide, by decide⟩

/-- C9 amended: only the part_001 logging variant validates the cart: it
rejects an empty cart with 400 and the body Cart is empty before any
external call; the src/server.js handler performs no empty-cart check and
proceeds to the gateway call, reporting a gateway failure as 500. -/
theorem empty_cart_amended (hasCustomerData : Bool) (catalog : List Int) (stripeOk : Bool) :
    loggingCreateSession [] hasCustomerData catalog stripeOk
      = (.clientError 400 ("Cart is empty"), []) ∧
    serverJsCreateSession [] catalog false
      = (.serverError ("stripe error"), [.stripeCreateSession]) := by
  exact ⟨rfl, rfl⟩

end Senkisem
